import Mathlib

/-!
Shallow embedding of the robot-shop catalogue microservice
(src/catalogue/src/app.js, main variant, and src/unnamed/part_000, an
alternative variant of the same file).

The service is an Express app with one collection of products in MongoDB.
We model:
  - the product documents and the collection (the Mongo text index is an
    external facility, modelled as an opaque function on the collection);
  - the query operations the handlers issue (find, findOne, sorted find,
    distinct, text search) as pure functions over the document list;
  - a store that either answers queries from a collection or makes every
    query throw (rejects) with a fixed error string;
  - each route handler as a function from the connectivity flag, the store
    and the request to the emitted response (if any) together with the list
    of store query operations the handler invoked;
  - the constructor and the Mongo reconnect loop (mongoConnect /
    startMongoLoop) as a small state machine.

Responses: `resp = none` means the handler never sent a response for the
request (the request dangles).  Log output goes to an external sink and is
not part of the observable result, except that tryConnectStep records
whether the loop body logged an error, which one claim mentions.
-/

namespace Catalogue

/-- Product document: sku, name, categories; further descriptive fields are
opaque and play no role in any handler, so they are omitted. -/
structure Product where
  sku : String
  name : String
  categories : List String
deriving Repr, DecidableEq

/-- The products collection.  `docs` is the stored document list;
`textIndex` is the Mongo text-index search (an external facility the
service only passes queries to), modelled as an opaque function from the
search text to the matching documents. -/
structure Collection where
  docs : List Product
  textIndex : String → List Product

/-- Store as seen by one request: either healthy, answering queries from a
collection, or failing, in which case every query operation rejects with
the error `e`. -/
inductive StoreState where
  | healthy (c : Collection)
  | failing (e : String)

/-- The GET routes of setupRoutes, one constructor per route. -/
inductive Request where
  | health
  | products
  | productBySku (sku : String)
  | productsByCat (cat : String)
  | categories
  | search
  | searchByText (text : String)
deriving Repr, DecidableEq

/-- Response bodies: plain text (error messages) or JSON payloads. -/
inductive Body where
  | text (s : String)
  | jsonHealth (app : String) (mongo : Bool)
  | jsonProducts (ps : List Product)
  | jsonProduct (p : Product)
  | jsonStrings (ss : List String)
deriving Repr, DecidableEq

structure HttpResponse where
  status : Nat
  body : Body
deriving Repr, DecidableEq

/-- The store query operations a handler can invoke on the collection. -/
inductive QueryOp where
  | findAll
  | findOneSku (sku : String)
  | findByCategorySorted (cat : String)
  | distinctCategories
  | textSearch (text : String)
deriving Repr, DecidableEq

/-- Result of running one handler on one request: the response sent to the
client, if any, and the store query operations invoked while handling. -/
structure HandlerResult where
  resp : Option HttpResponse
  queries : List QueryOp
deriving Repr, DecidableEq

/-- Boolean ascending-by-name comparison used by the category route sort
(`.sort (\x7b name: 1 \x7d)` in the source). -/
def nameLe (a b : Product) : Bool := a.name ≤ b.name

/-- `collection.find(\x7b\x7d).toArray()`: unsorted full scan. -/
def Collection.findAllDocs (c : Collection) : List Product := c.docs

/-- `collection.findOne(\x7b sku \x7d)`: first document whose sku equals the
argument, or none. -/
def Collection.findOneBySku (c : Collection) (sku : String) : Option Product :=
  c.docs.find? (fun p => p.sku == sku)

/-- `collection.find(\x7b categories: cat \x7d).sort(\x7b name: 1 \x7d).toArray()`:
documents whose categories array contains `cat`, sorted ascending by name. -/
def Collection.findByCatSorted (c : Collection) (cat : String) : List Product :=
  (c.docs.filter (fun p => p.categories.contains cat)).mergeSort nameLe

/-- `collection.distinct(\x27categories\x27)`: distinct category values across
all documents. -/
def Collection.distinctCats (c : Collection) : List String :=
  ((c.docs.map (fun p => p.categories)).flatten).eraseDups

/-- The short-circuit response every non-health handler emits while the
connectivity flag is false: 500, body "database not available", before any
query is issued. -/
def dbUnavailable : HandlerResult :=
  { resp := some { status := 500, body := Body.text "database not available" },
    queries := [] }

/-- Route handlers of the main variant (src/catalogue/src/app.js,
setupRoutes).  Each non-health handler first checks the connectivity flag;
on a healthy store it runs its query and maps the outcome; on a failing
store the catch block answers 500 "internal error" — except the by-sku
route, whose findOne runs inside a setTimeout callback: a rejection there
happens outside the try/catch, so no response is sent at all. -/
def handleRequest (conn : Bool) (store : StoreState) : Request → HandlerResult
  | Request.health =>
      { resp := some { status := 200, body := Body.jsonHealth "OK" conn },
        queries := [] }
  | Request.products =>
      if !conn then dbUnavailable else
      match store with
      | StoreState.healthy c =>
          { resp := some { status := 200, body := Body.jsonProducts c.findAllDocs },
            queries := [QueryOp.findAll] }
      | StoreState.failing _ =>
          { resp := some { status := 500, body := Body.text "internal error" },
            queries := [QueryOp.findAll] }
  | Request.productBySku sku =>
      if !conn then dbUnavailable else
      match store with
      | StoreState.healthy c =>
          match c.findOneBySku sku with
          | some p =>
              { resp := some { status := 200, body := Body.jsonProduct p },
                queries := [QueryOp.findOneSku sku] }
          | none =>
              { resp := some { status := 404, body := Body.text "SKU not found" },
                queries := [QueryOp.findOneSku sku] }
      | StoreState.failing _ =>
          { resp := none, queries := [QueryOp.findOneSku sku] }
  | Request.productsByCat cat =>
      if !conn then dbUnavailable else
      match store with
      | StoreState.healthy c =>
          let products := c.findByCatSorted cat
          if products.length = 0 then
            { resp := some { status := 404, body := Body.text ("No products for " ++ cat) },
              queries := [QueryOp.findByCategorySorted cat] }
          else
            { resp := some { status := 200, body := Body.jsonProducts products },
              queries := [QueryOp.findByCategorySorted cat] }
      | StoreState.failing _ =>
          { resp := some { status := 500, body := Body.text "internal error" },
            queries := [QueryOp.findByCategorySorted cat] }
  | Request.categories =>
      if !conn then dbUnavailable else
      match store with
      | StoreState.healthy c =>
          { resp := some { status := 200, body := Body.jsonStrings c.distinctCats },
            queries := [QueryOp.distinctCategories] }
      | StoreState.failing _ =>
          { resp := some { status := 500, body := Body.text "internal error" },
            queries := [QueryOp.distinctCategories] }
  | Request.search =>
      if !conn then dbUnavailable else
      match store with
      | StoreState.healthy c =>
          { resp := some { status := 200, body := Body.jsonProducts c.findAllDocs },
            queries := [QueryOp.findAll] }
      | StoreState.failing _ =>
          { resp := some { status := 500, body := Body.text "internal error" },
            queries := [QueryOp.findAll] }
  | Request.searchByText text =>
      if !conn then dbUnavailable else
      match store with
      | StoreState.healthy c =>
          { resp := some { status := 200, body := Body.jsonProducts (c.textIndex text) },
            queries := [QueryOp.textSearch text] }
      | StoreState.failing _ =>
          { resp := some { status := 500, body := Body.text "internal error" },
            queries := [QueryOp.textSearch text] }

/-- Route handlers of the alternative variant (src/unnamed/part_000,
setupRoutes).  Identical control flow; the only behavioural difference is
the catch blocks, which send the caught error itself as the body
(`res.status(500).send(e)`) instead of the generic "internal error".  The
by-sku route has the same setTimeout structure, so a findOne rejection
again escapes the try/catch and no response is sent. -/
def handleRequestAlt (conn : Bool) (store : StoreState) : Request → HandlerResult
  | Request.health =>
      { resp := some { status := 200, body := Body.jsonHealth "OK" conn },
        queries := [] }
  | Request.products =>
      if !conn then dbUnavailable else
      match store with
      | StoreState.healthy c =>
          { resp := some { status := 200, body := Body.jsonProducts c.findAllDocs },
            queries := [QueryOp.findAll] }
      | StoreState.failing e =>
          { resp := some { status := 500, body := Body.text e },
            queries := [QueryOp.findAll] }
  | Request.productBySku sku =>
      if !conn then dbUnavailable else
      match store with
      | StoreState.healthy c =>
          match c.findOneBySku sku with
          | some p =>
              { resp := some { status := 200, body := Body.jsonProduct p },
                queries := [QueryOp.findOneSku sku] }
          | none =>
              { resp := some { status := 404, body := Body.text "SKU not found" },
                queries := [QueryOp.findOneSku sku] }
      | StoreState.failing _ =>
          { resp := none, queries := [QueryOp.findOneSku sku] }
  | Request.productsByCat cat =>
      if !conn then dbUnavailable else
      match store with
      | StoreState.healthy c =>
          let products := c.findByCatSorted cat
          if 0 < products.length then
            { resp := some { status := 200, body := Body.jsonProducts products },
              queries := [QueryOp.findByCategorySorted cat] }
          else
            { resp := some { status := 404, body := Body.text ("No products for " ++ cat) },
              queries := [QueryOp.findByCategorySorted cat] }
      | StoreState.failing e =>
          { resp := some { status := 500, body := Body.text e },
            queries := [QueryOp.findByCategorySorted cat] }
  | Request.categories =>
      if !conn then dbUnavailable else
      match store with
      | StoreState.healthy c =>
          { resp := some { status := 200, body := Body.jsonStrings c.distinctCats },
            queries := [QueryOp.distinctCategories] }
      | StoreState.failing e =>
          { resp := some { status := 500, body := Body.text e },
            queries := [QueryOp.distinctCategories] }
  | Request.search =>
      if !conn then dbUnavailable else
      match store with
      | StoreState.healthy c =>
          { resp := some { status := 200, body := Body.jsonProducts c.findAllDocs },
            queries := [QueryOp.findAll] }
      | StoreState.failing e =>
          { resp := some { status := 500, body := Body.text e },
            queries := [QueryOp.findAll] }
  | Request.searchByText text =>
      if !conn then dbUnavailable else
      match store with
      | StoreState.healthy c =>
          { resp := some { status := 200, body := Body.jsonProducts (c.textIndex text) },
            queries := [QueryOp.textSearch text] }
      | StoreState.failing e =>
          { resp := some { status := 500, body := Body.text e },
            queries := [QueryOp.textSearch text] }

/-- Mutable instance state relevant to the connection lifecycle: the
connectivity flag `this.mongoConnected` and the bound collection handle
`this.collection` (none until first assigned). -/
structure AppState where
  mongoConnected : Bool
  collection : Option Collection

/-- Result of running the constructor: the instance state when the
constructor returns, plus whether startMongoLoop (the only caller of
mongoConnect, hence the only path that ever attempts a connect) was
invoked. -/
structure InitResult where
  state : AppState
  loopStarted : Bool

/-- The constructor.  `this.mongoConnected = false` runs first in both
branches; without mock collections, startMongoLoop is invoked and the
constructor returns while still disconnected (the first connect attempt
suspends on network I/O); with mock collections the constructor binds the
collection and then sets the flag true, and the loop never starts. -/
def appInit : Option Collection → InitResult
  | none =>
      { state := { mongoConnected := false, collection := none },
        loopStarted := true }
  | some mock =>
      { state := { mongoConnected := true, collection := some mock },
        loopStarted := false }

/-- Observable effect of one iteration of tryConnect in startMongoLoop:
the connectivity flag afterwards, the delays (ms) of the retry timers it
scheduled, and whether it logged an error. -/
structure TryConnectResult where
  mongoConnected : Bool
  retriesScheduled : List Nat
  loggedError : Bool
deriving Repr, DecidableEq

/-- One iteration of tryConnect, given the outcome of the awaited
mongoConnect call: on success the flag is set true and nothing is
scheduled; on failure the flag is left as it was, the error is logged and
exactly one retry is scheduled via `setTimeout(tryConnect, 2000)`. -/
def tryConnectStep (conn : Bool) : Except String Unit → TryConnectResult
  | Except.ok _ =>
      { mongoConnected := true, retriesScheduled := [], loggedError := false }
  | Except.error _ =>
      { mongoConnected := conn, retriesScheduled := [2000], loggedError := true }

/-- The whole retry loop over a sequence of connect outcomes: each failure
schedules the next iteration; the first success sets the flag and schedules
nothing, so the loop stops there.  Returns the final flag and the number of
connect attempts made. -/
def runMongoLoop (conn : Bool) : List (Except String Unit) → Bool × Nat
  | [] => (conn, 0)
  | Except.ok _ :: _ => (true, 1)
  | Except.error _ :: rest =>
      let r := runMongoLoop conn rest
      (r.1, r.2 + 1)

/-- Successful body of mongoConnect: binds `this.collection` and then sets
`this.mongoConnected = true`.  The two assignments run in one synchronous
block after the awaits, so no request handler can observe a state between
them; the step is therefore modelled atomically. -/
def mongoConnectSuccess (_s : AppState) (c : Collection) : AppState :=
  { mongoConnected := true, collection := some c }

/-- Instance states observable by request handlers: the state the
constructor leaves (either branch), and any state reached from one by a
successful mongoConnect.  Failed connect attempts leave the state
unchanged and add no reachable states. -/
inductive Reachable : AppState → Prop
  | initNone : Reachable (appInit none).state
  | initMock (c : Collection) : Reachable (appInit (some c)).state
  | connectOk {s : AppState} (c : Collection) :
      Reachable s → Reachable (mongoConnectSuccess s c)

/-- The empty store: no documents, text search matches nothing. -/
def emptyCollection : Collection :=
  { docs := [], textIndex := fun _ => [] }

/-- The two-product fixture of the unit tests
(src/catalogue/tests/app.test.js). -/
def fixtureProducts : List Product :=
  [ { sku := "sku1", name := "Product1", categories := ["cat1"] },
    { sku := "sku2", name := "Product2", categories := ["cat2"] } ]

/-- Fixture collection built from the test products; the text index is not
exercised by the claims that use this fixture. -/
def fixtureCollection : Collection :=
  { docs := fixtureProducts, textIndex := fun _ => [] }

/-- Claim C1: while the connectivity flag is false, every route other than
the health route answers 500 with body "database not available" and issues
no store query operation, in both source variants. -/
theorem disconnected_short_circuits (store : StoreState) (req : Request)
    (h : req ≠ Request.health) :
    handleRequest false store req =
      { resp := some { status := 500, body := Body.text "database not available" },
        queries := [] } ∧
    handleRequestAlt false store req =
      { resp := some { status := 500, body := Body.text "database not available" },
        queries := [] } := by
  cases req <;>
    simp [handleRequest, handleRequestAlt, dbUnavailable] at h ⊢

/-- Witness for C1: the products route, disconnected, healthy empty store. -/
theorem disconnected_short_circuits_witness :
    handleRequest false (StoreState.healthy emptyCollection) Request.products =
      { resp := some { status := 500, body := Body.text "database not available" },
        queries := [] } ∧
    handleRequestAlt false (StoreState.healthy emptyCollection) Request.products =
      { resp := some { status := 500, body := Body.text "database not available" },
        queries := [] } :=
  disconnected_short_circuits (StoreState.healthy emptyCollection) Request.products
    (by decide)

/-- Claim C2 (evidence of the code bug): with a failing store, the by-sku
handler of the main variant sends no response at all, because the findOne
rejection happens inside the setTimeout callback, outside the try/catch;
and the alternative variant sends the raw error as the body of its 500
response, leaking the underlying cause to the client. -/
theorem store_failure_not_contained :
    handleRequest true (StoreState.failing "boom") (Request.productBySku "sku1") =
      { resp := none, queries := [QueryOp.findOneSku "sku1"] } ∧
    handleRequestAlt true (StoreState.failing "boom") Request.products =
      { resp := some { status := 500, body := Body.text "boom" },
        queries := [QueryOp.findAll] } :=
  ⟨rfl, rfl⟩

/-- Claim C3: for every connectivity state and store, the health route
answers 200 with JSON body app = "OK" and mongo = the current flag, with
no availability gate and no store query, in both source variants. -/
theorem health_always_ok (conn : Bool) (store : StoreState) :
    handleRequest conn store Request.health =
      { resp := some { status := 200, body := Body.jsonHealth "OK" conn },
        queries := [] } ∧
    handleRequestAlt conn store Request.health =
      { resp := some { status := 200, body := Body.jsonHealth "OK" conn },
        queries := [] } :=
  ⟨rfl, rfl⟩

/-- Claim C7: when connected, the bare search route and the products route
behave identically on every store (same response, same query trace), and on
a healthy store both return the full unfiltered document list with 200. -/
theorem search_equals_list_all :
    (∀ (store : StoreState),
      handleRequest true store Request.search =
        handleRequest true store Request.products ∧
      handleRequestAlt true store Request.search =
        handleRequestAlt true store Request.products) ∧
    (∀ (c : Collection),
      handleRequest true (StoreState.healthy c) Request.search =
        { resp := some { status := 200, body := Body.jsonProducts c.docs },
          queries := [QueryOp.findAll] }) := by
  constructor
  · intro store
    cases store <;> exact ⟨rfl, rfl⟩
  · intro c
    rfl

/-- Claim C4: when connected on a healthy store, the by-category route with
zero matching documents answers 404 with body "No products for " followed
by the category, while the text-search route with zero matches answers 200
with an empty array. -/
theorem empty_category_404_empty_search_200 (c : Collection) (cat text : String)
    (hcat : c.docs.filter (fun p => p.categories.contains cat) = [])
    (htext : c.textIndex text = []) :
    handleRequest true (StoreState.healthy c) (Request.productsByCat cat) =
      { resp := some { status := 404, body := Body.text ("No products for " ++ cat) },
        queries := [QueryOp.findByCategorySorted cat] } ∧
    handleRequest true (StoreState.healthy c) (Request.searchByText text) =
      { resp := some { status := 200, body := Body.jsonProducts [] },
        queries := [QueryOp.textSearch text] } := by
  constructor
  · have hemp : c.findByCatSorted cat = [] := by
      rw [Collection.findByCatSorted, hcat, List.mergeSort_nil]
    simp [handleRequest, hemp]
  · simp [handleRequest, htext]

/-- Witness for C4: the empty store, any category and search text. -/
theorem empty_category_404_empty_search_200_witness :
    handleRequest true (StoreState.healthy emptyCollection) (Request.productsByCat "cat9") =
      { resp := some { status := 404, body := Body.text ("No products for " ++ "cat9") },
        queries := [QueryOp.findByCategorySorted "cat9"] } ∧
    handleRequest true (StoreState.healthy emptyCollection) (Request.searchByText "zzz") =
      { resp := some { status := 200, body := Body.jsonProducts [] },
        queries := [QueryOp.textSearch "zzz"] } :=
  empty_category_404_empty_search_200 emptyCollection "cat9" "zzz" rfl rfl

/-- Claim C5: when connected on a healthy store, the by-sku route answers
200 with a stored document whose sku equals the path parameter whenever one
exists, and 404 with body "SKU not found" when no stored document has that
sku. -/
theorem sku_lookup_contract (c : Collection) (sku : String) :
    ((∃ p, p ∈ c.docs ∧ p.sku = sku) →
      ∃ p, p ∈ c.docs ∧ p.sku = sku ∧
        handleRequest true (StoreState.healthy c) (Request.productBySku sku) =
          { resp := some { status := 200, body := Body.jsonProduct p },
            queries := [QueryOp.findOneSku sku] }) ∧
    ((∀ p, p ∈ c.docs → p.sku ≠ sku) →
      handleRequest true (StoreState.healthy c) (Request.productBySku sku) =
        { resp := some { status := 404, body := Body.text "SKU not found" },
          queries := [QueryOp.findOneSku sku] }) := by
  constructor
  · rintro ⟨q, hq, hqs⟩
    have hsome : (c.docs.find? (fun p => p.sku == sku)).isSome := by
      rw [List.find?_isSome]
      exact ⟨q, hq, by simp [hqs]⟩
    obtain ⟨p, hp⟩ := Option.isSome_iff_exists.mp hsome
    have hmem : p ∈ c.docs := List.mem_of_find?_eq_some hp
    have hps : p.sku = sku := by
      have := List.find?_some hp
      simpa using this
    refine ⟨p, hmem, hps, ?_⟩
    simp [handleRequest, Collection.findOneBySku, hp]
  · intro hnone
    have hfind : c.findOneBySku sku = none := by
      rw [Collection.findOneBySku, List.find?_eq_none]
      intro p hp
      simp [hnone p hp]
    simp [handleRequest, hfind]

/-- Witness for C5: the two-product test fixture, a present sku and an
absent one. -/
theorem sku_lookup_contract_witness :
    (∃ p, p ∈ fixtureCollection.docs ∧ p.sku = "sku1" ∧
      handleRequest true (StoreState.healthy fixtureCollection) (Request.productBySku "sku1") =
        { resp := some { status := 200, body := Body.jsonProduct p },
          queries := [QueryOp.findOneSku "sku1"] }) ∧
    handleRequest true (StoreState.healthy fixtureCollection) (Request.productBySku "missing") =
      { resp := some { status := 404, body := Body.text "SKU not found" },
        queries := [QueryOp.findOneSku "missing"] } :=
  ⟨(sku_lookup_contract fixtureCollection "sku1").1
      ⟨{ sku := "sku1", name := "Product1", categories := ["cat1"] }, by decide, rfl⟩,
    (sku_lookup_contract fixtureCollection "missing").2 (by decide)⟩

/-- Claim C6: when connected on a healthy store with at least one document
in the requested category, the by-category route answers 200 with exactly
the documents whose categories contain the category, in ascending order of
their name field. -/
theorem category_listing_sorted (c : Collection) (cat : String)
    (h : c.docs.filter (fun p => p.categories.contains cat) ≠ []) :
    ∃ l, handleRequest true (StoreState.healthy c) (Request.productsByCat cat) =
        { resp := some { status := 200, body := Body.jsonProducts l },
          queries := [QueryOp.findByCategorySorted cat] } ∧
      l.Perm (c.docs.filter (fun p => p.categories.contains cat)) ∧
      l.Pairwise (fun a b => a.name ≤ b.name) := by
  refine ⟨c.findByCatSorted cat, ?_, ?_, ?_⟩
  · have hlen : (c.findByCatSorted cat).length ≠ 0 := by
      rw [Collection.findByCatSorted, List.length_mergeSort]
      simpa [List.length_eq_zero] using h
    simp [handleRequest, hlen]
  · exact List.mergeSort_perm _ _
  · have htrans : ∀ (a b d : Product), nameLe a b → nameLe b d → nameLe a d := by
      intro a b d hab hbd
      simp only [nameLe, decide_eq_true_eq] at hab hbd ⊢
      exact le_trans hab hbd
    have htotal : ∀ (a b : Product), nameLe a b || nameLe b a := by
      intro a b
      simp only [nameLe, Bool.or_eq_true, decide_eq_true_eq]
      exact le_total a.name b.name
    have hs := @List.sorted_mergeSort Product nameLe htrans htotal
      (c.docs.filter (fun p => p.categories.contains cat))
    refine hs.imp ?_
    intro a b hab
    simpa [nameLe] using hab

/-- Witness for C6: the test fixture with category "cat1", which matches
exactly one document. -/
theorem category_listing_sorted_witness :
    ∃ l, handleRequest true (StoreState.healthy fixtureCollection) (Request.productsByCat "cat1") =
        { resp := some { status := 200, body := Body.jsonProducts l },
          queries := [QueryOp.findByCategorySorted "cat1"] } ∧
      l.Perm (fixtureCollection.docs.filter (fun p => p.categories.contains "cat1")) ∧
      l.Pairwise (fun a b => a.name ≤ b.name) :=
  category_listing_sorted fixtureCollection "cat1" (by decide)

/-- Claim C8 (counterexample): constructing the service with injected mock
collections leaves the connectivity flag true although the supervision loop
— the only code path that ever calls connect — was never started, so the
flag was not set by a successful connect. -/
theorem mock_injection_sets_flag_without_connect :
    (appInit (some fixtureCollection)).state.mongoConnected = true ∧
    (appInit (some fixtureCollection)).loopStarted = false :=
  ⟨rfl, rfl⟩

/-- Claim C8 (amended): the connectivity flag starts false when no mock
collections are injected; a failed connect attempt leaves the flag
unchanged, logs the error and schedules exactly one retry after 2000 ms; a
successful attempt sets the flag true and schedules nothing; once true the
flag is never reset by any loop step; and the loop makes exactly one
attempt per failure before the first success and none after it. -/
theorem connection_flag_lifecycle :
    (appInit none).state.mongoConnected = false ∧
    (∀ (conn : Bool) (e : String),
      tryConnectStep conn (Except.error e) =
        { mongoConnected := conn, retriesScheduled := [2000], loggedError := true }) ∧
    (∀ (conn : Bool) (u : Unit),
      tryConnectStep conn (Except.ok u) =
        { mongoConnected := true, retriesScheduled := [], loggedError := false }) ∧
    (∀ (conn : Bool) (o : Except String Unit),
      conn = true → (tryConnectStep conn o).mongoConnected = true) ∧
    (∀ (conn : Bool) (es : List String) (rest : List (Except String Unit)),
      runMongoLoop conn (es.map Except.error ++ Except.ok () :: rest) =
        (true, es.length + 1)) := by
  refine ⟨rfl, fun conn e => rfl, fun conn u => rfl, ?_, ?_⟩
  · intro conn o hconn
    cases o <;> simp [tryConnectStep, hconn]
  · intro conn es rest
    induction es with
    | nil => rfl
    | cons e es ih => simp [runMongoLoop, ih]

/-- Witness for C8: a connected-state loop step after one failure keeps the
flag, and a two-failure run converges in three attempts. -/
theorem connection_flag_lifecycle_witness :
    (tryConnectStep true (Except.error "refused")).mongoConnected = true ∧
    runMongoLoop false (List.map Except.error ["a", "b"] ++ Except.ok () :: []) =
      (true, 3) :=
  ⟨connection_flag_lifecycle.2.2.2.1 true (Except.error "refused") rfl,
    connection_flag_lifecycle.2.2.2.2 false ["a", "b"] []⟩

/-- Claim C9: in every state a request handler can observe, a true
connectivity flag implies the collection handle is bound, since both the
mock branch of the constructor and the success path of mongoConnect bind
the collection in the same synchronous block that sets the flag. -/
theorem connected_implies_collection_bound (s : AppState)
    (hr : Reachable s) (hc : s.mongoConnected = true) :
    ∃ c, s.collection = some c := by
  induction hr with
  | initNone => simp [appInit] at hc
  | initMock c => exact ⟨c, rfl⟩
  | connectOk c hr ih => exact ⟨c, rfl⟩

/-- Witness for C9: the mock-constructed state is reachable, connected, and
has its collection bound. -/
theorem connected_implies_collection_bound_witness :
    ∃ c, (appInit (some fixtureCollection)).state.collection = some c :=
  connected_implies_collection_bound (appInit (some fixtureCollection)).state
    (Reachable.initMock fixtureCollection) rfl

/-- Claim C10: for every connectivity state, store outcome and route, the
two source variants answer with the same HTTP status (or both send no
response); they differ only in bodies and logging. -/
theorem variant_status_parity (conn : Bool) (store : StoreState) (req : Request) :
    Option.map HttpResponse.status (handleRequest conn store req).resp =
      Option.map HttpResponse.status (handleRequestAlt conn store req).resp := by
  cases conn
  · cases req <;> rfl
  · cases req with
    | health => rfl
    | products => cases store <;> rfl
    | productBySku sku =>
        cases store with
        | healthy c =>
            cases hf : c.findOneBySku sku <;>
              simp [handleRequest, handleRequestAlt, hf]
        | failing e => rfl
    | productsByCat cat =>
        cases store with
        | healthy c =>
            by_cases hl : (c.findByCatSorted cat).length = 0
            · simp [handleRequest, handleRequestAlt, hl]
            · simp [handleRequest, handleRequestAlt, hl, Nat.pos_of_ne_zero hl]
        | failing e => rfl
    | categories => cases store <;> rfl
    | search => cases store <;> rfl
    | searchByText text => cases store <;> rfl

end Catalogue
